import Mathlib

/-!
Verification development for the CyberSource payment-gateway integration
(`saleor/payment/gateways/cybersource/`): a shallow embedding of the
signing/validation engine (`csapi.py`), the plugin decision logic
(`plugin.py`) and the webhook entry point (`webhooks.py`), with theorems
about the request-building / signature-verification protocol.
-/

namespace Saleor

/-- A decimal number `num / 10 ^ scale`, the representation behind
Python's `decimal.Decimal` (sign+digits+exponent).  `int`, `float` and
`Decimal` amounts are all modelled through it; the binary nature of
`float` is immaterial to every theorem below. -/
structure Dec where
  num : Int
  scale : Nat
deriving DecidableEq

/-- Python values occurring in gateway field maps: strings, numbers, and
a stand-in for any other object, used only where the source inspects the
value's type (`CyberSource._format_amount`). -/
inductive Val where
  | str (s : String)
  | num (d : Dec)
  | other
deriving DecidableEq

/-- Exceptions the embedded code can raise.  `validationError` and
`signatureError` model `csapi.ValidationError` / `csapi.SignatureError`,
identified by the raise site and the message it passes; `paymentError`
models `saleor.payment.PaymentError`; the remaining constructors model
Python builtin exceptions surfacing from slips in the source
(`AttributeError`, `NameError`, `decimal.InvalidOperation`).
A caveat on granularity: the `__init__` methods of the
`CyberSourceError` hierarchy are themselves defective
(`CyberSourceError.__init__(*args, code=0)` has no `self` parameter yet
assigns `self.code`, and `SignatureError.__init__` reads an undefined
name `args`), so at interpreter level constructing any of these classes
raises a builtin `NameError`/`RuntimeError` in place of the intended
exception.  The embedding identifies each failure by its raise site —
the unit the source's own handlers and the claims discriminate — and
leaves that uniform constructor defect outside the model. -/
inductive PyErr where
  | validationError (msg : String)
  | signatureError (msg : String)
  | paymentError (msg : String)
  | attributeError (msg : String)
  | nameError (msg : String)
  | invalidOperation
deriving DecidableEq

/-- A Python `dict[str, object]` as an insertion-ordered association list
(keys unique in any dict the source builds). -/
abbrev Dict := List (String × Val)

/-- Dictionary lookup, `data[k]` / `data.get(k)`: first matching key. -/
def dget (d : Dict) (k : String) : Option Val :=
  match d with
  | [] => none
  | p :: ps => if p.1 = k then some p.2 else dget ps k

/-- Key-presence test, `k in data`. -/
def dmem (d : Dict) (k : String) : Bool :=
  (dget d k).isSome

/-- Dictionary assignment `data[k] = v`: update in place if the key is
present, append otherwise (CPython dicts keep insertion order). -/
def dset (d : Dict) (k : String) (v : Val) : Dict :=
  match d with
  | [] => [(k, v)]
  | p :: ps => if p.1 = k then (k, v) :: ps else p :: dset ps k v

/-- The key list `data.keys()` (in insertion order). -/
def dkeys : Dict → List String
  | [] => []
  | p :: ps => p.1 :: dkeys ps

/-- Right-to-left dictionary merge: `dmerge d e` is the dict literal
spreading `d` first and then the entries of `e` (later keys win), as in
`{..., **map_address(...)}`. -/
def dmerge (d e : Dict) : Dict :=
  e.foldl (fun acc p => dset acc p.1 p.2) d

/- Module constants of `csapi.py`. -/

def LIVE_URL : String := "https://secureacceptance.cybersource.com/pay"
def TEST_URL : String := "https://testsecureacceptance.cybersource.com/pay"
def CURRENCY : String := "NPR"
def LOCALE : String := "en"
def PAYMENT_METHOD : String := "card"
def AUTH : String := "authorization"
def CAPTURE : String := "sale"

def REQUIRED_FIELDS : List String :=
  ["access_key", "amount", "currency", "locale", "profile_id",
   "reference_number", "signed_date_time", "signed_field_names",
   "transaction_type", "transaction_uuid", "unsigned_field_names"]

def SIGNED_FIELDS : List String :=
  REQUIRED_FIELDS ++
  ["bill_to_forename", "bill_to_surname", "bill_to_phone", "bill_to_email",
   "bill_to_address_line1", "bill_to_address_line2", "bill_to_address_city",
   "bill_to_address_postal_code", "bill_to_address_state",
   "bill_to_address_country", "merchant_id", "payment_method"]

def ADDED_FIELDS : List String :=
  ["access_key", "currency", "locale", "merchant_id", "payment_method",
   "profile_id", "signed_date_time", "signed_field_names",
   "transaction_type", "transaction_uuid", "unsigned_field_names"]

/-- `CHECK_FIELDS = REQUIRED_FIELDS - ADDED_FIELDS`. -/
def CHECK_FIELDS : List String :=
  REQUIRED_FIELDS.filter (fun f => decide (f ∉ ADDED_FIELDS))

def EXTRA_FIELDS : List String :=
  ["signed_field_names", "unsigned_field_names"]

def E_AMOUNT : String := "Amount format or type is invalid."
def E_SIGNATURE : String := "Signature does not match."
def E_NO_SIGN_FIELD : String := "No signature field in payment data."
def E_NO_SIGN_VALUE : String := "No signature value in payment data."
def E_CHECK_FIELDS : String := "Required fields check failed."
def E_REQ_FIELDS : String := "Required field(s) are missing."
def E_NOKEY : String := "Missing field(s) in payment data."
def E_VALUE : String := "Invalid value(s) in payment data."

/-- `E_MISSING_FIELD % name`. -/
def eMissingField (name : String) : String :=
  "Field \"" ++ name ++ "\" is missing in payment data."

/-- Gateway statuses treated as a completed hosted flow:
`Status.RETURN = Status.CONFIRM = {ACCEPT, REVIEW}`. -/
def STATUS_RETURN : List String := ["ACCEPT", "REVIEW"]

/-- Python string membership `v in {set of str}`: true only for an equal
string, false for values of any other type. -/
def valInStrSet (v : Val) (l : List String) : Bool :=
  match v with
  | Val.str s => l.contains s
  | _ => false

/-- Python truthiness of a field value (`not signature`). -/
def pyFalsy (v : Val) : Bool :=
  match v with
  | Val.str s => s = ""
  | Val.num d => d.num = 0
  | Val.other => false

/-- Splitting a character list at every comma; models `str.split(',')`
at the level of the character data (so `splitC [] = [[]]`, matching
`''.split(',') == ['']`). -/
def splitC : List Char → List (List Char)
  | [] => [[]]
  | c :: cs =>
    if c = ',' then [] :: splitC cs
    else
      match splitC cs with
      | [] => [[c]]
      | p :: ps => (c :: p) :: ps

/-- Joining character lists with commas; models `','.join` at the level
of the character data. -/
def joinC : List (List Char) → List Char
  | [] => []
  | [x] => x
  | x :: y :: ys => x ++ ',' :: joinC (y :: ys)

/-- `s.split(',')`. -/
def pySplitComma (s : String) : List String :=
  (splitC s.data).map String.mk

/-- `','.join(l)`. -/
def joinComma (l : List String) : String :=
  String.mk (joinC (l.map String.data))

/-- Lexicographic comparison of character lists by code point, the order
Python's `sorted` uses on `str`. -/
def charsLt : List Char → List Char → Bool
  | [], [] => false
  | [], _ :: _ => true
  | _ :: _, [] => false
  | c :: cs, d :: ds =>
    if c.toNat < d.toNat then true
    else if d.toNat < c.toNat then false
    else charsLt cs ds

/-- Strict string comparison backing `sortStr`. -/
def strLt (a b : String) : Bool :=
  charsLt a.data b.data

/-- Insert a string into an already sorted list (ascending). -/
def insortStr (x : String) : List String → List String
  | [] => [x]
  | y :: ys => if strLt x y then x :: y :: ys else y :: insortStr x ys

/-- Insertion sort on strings; models Python `sorted` on a set of field
names (the development only relies on it being a permutation). -/
def sortStr (l : List String) : List String :=
  l.foldr insortStr []

/-- Python `str()` rendering of a field value as used in f-string
interpolation inside `CyberSource.tosign`.  Values signed by the code in
practice are strings; the rendering of the other constructors only needs
to be some fixed function for the determinism arguments below. -/
def valRender (v : Val) : String :=
  match v with
  | Val.str s => s
  | Val.num d => if d.scale = 0 then toString d.num
    else toString d.num ++ "e-" ++ toString d.scale
  | Val.other => "object"

/-- Numeric value of a digit list (most significant first). -/
def digitsToNat (l : List Char) : Nat :=
  l.foldl (fun a c => a * 10 + (c.toNat - 48)) 0

/-- Unsigned part of `decimal.Decimal(str)` conversion: digits with an
optional single point, at least one digit overall. -/
def parseUnsigned (cs : List Char) : Option Dec :=
  let intPart := cs.takeWhile (fun c => c.isDigit)
  let rest := cs.dropWhile (fun c => c.isDigit)
  match rest with
  | [] => if intPart = [] then none else some ⟨(digitsToNat intPart : Int), 0⟩
  | '.' :: fracRest =>
    let fracPart := fracRest.takeWhile (fun c => c.isDigit)
    let tail := fracRest.dropWhile (fun c => c.isDigit)
    if tail = [] ∧ (intPart ≠ [] ∨ fracPart ≠ []) then
      some ⟨(digitsToNat intPart * 10 ^ fracPart.length
        + digitsToNat fracPart : Int), fracPart.length⟩
    else none
  | _ => none

/-- Model of `decimal.Decimal(s)` for strings: `some` exact value on a
plain sign/digits/point literal, `none` where CPython raises
`decimal.InvalidOperation`.  (Exponent notation and the specials
`Infinity`/`NaN` are left out; no theorem below touches them.) -/
def parseDecimal (s : String) : Option Dec :=
  match s.data with
  | '-' :: t => (parseUnsigned t).map (fun d => ⟨-d.num, d.scale⟩)
  | '+' :: t => parseUnsigned t
  | t => parseUnsigned t

/-- Two-digit decimal rendering of `n % 100`-sized naturals. -/
def pad2 (n : Nat) : String :=
  if n < 10 then "0" ++ toString n else toString n

/-- Model of `'%.2f' % amount` (`AMOUNT_FORMAT`): fixed two decimal
places, decimal radix, no thousands separators, rounding the exact value
to the nearest cent (`⌊x * 100 + 1 / 2⌋` in integer arithmetic; the
interpreter's float-mediated tie behaviour can differ on exact
half-cents, which no theorem below exercises). -/
def fmt2 (d : Dec) : String :=
  let p : Int := (10 : Int) ^ d.scale
  let c : Int := (2 * 100 * d.num + p).fdiv (2 * p)
  let a : Nat := c.natAbs
  let core := toString (a / 100) ++ "." ++ pad2 (a % 100)
  if c < 0 then "-" ++ core else core

/-- The gateway configuration consumed by `CyberSource.__init__`
(`connection_params`). -/
structure Config where
  merchant_id : String
  profile_id : String
  access_key : String
  secret_key : String
  is_live : Bool
  auto_capture : Bool
  locale : String
deriving DecidableEq

/-- `csapi.Response`: wrapper around an inbound field map.  The
`reason_code` / `decision` scalars the constructor extracts are derived
from the wrapped data and recovered by the accessors below. -/
structure Response where
  data : Dict
deriving DecidableEq

/-- `Response.status` (the `decision` field, `None` when absent). -/
def Response.status (r : Response) : Option Val :=
  dget r.data "decision"

/-- Body of `CyberSource._format_amount` for the value found under
`amount`.  A string (or any non-numeric object) is converted with
`Decimal(amount)`: for a non-convertible string CPython raises
`decimal.InvalidOperation`, which the source's `except (TypeError,
ValueError)` clause does NOT catch, so it escapes as-is; for a
non-string, non-numeric object `Decimal` raises `TypeError`, which IS
caught and re-raised as `ValidationError(E_AMOUNT)`. -/
def formatAmountVal (v : Val) : Except PyErr String :=
  match v with
  | Val.num q => Except.ok (fmt2 q)
  | Val.str s =>
    match parseDecimal s with
    | some q => Except.ok (fmt2 q)
    | none => Except.error PyErr.invalidOperation
  | Val.other => Except.error (PyErr.validationError E_AMOUNT)

/-- `CyberSource._format_amount`: formats `result['amount']` in place;
a missing key raises `ValidationError(E_MISSING_FIELD % 'amount')`. -/
def formatAmount (result : Dict) : Except PyErr Dict :=
  match dget result "amount" with
  | none => Except.error (PyErr.validationError (eMissingField "amount"))
  | some v =>
    match formatAmountVal v with
    | Except.error e => Except.error e
    | Except.ok s => Except.ok (dset result "amount" (Val.str s))

/-- The `if key not in result: result[key] = v` idiom of
`CyberSource._add_missing`. -/
def setdefault (r : Dict) (key : String) (v : Val) : Dict :=
  if dmem r key then r else dset r key v

/-- `CyberSource._add_missing`, with the wall-clock timestamp and the
fresh `uuid4` injected as parameters `ts` and `uu` (the
`payment_method` default is additionally guarded by
`'payment_method' in ADDED_FIELDS`, as in the source). -/
def addMissing (ts uu : String) (r : Dict) : Dict :=
  let r := setdefault r "currency" (Val.str CURRENCY)
  let r := setdefault r "locale" (Val.str LOCALE)
  let r := if dmem r "payment_method" then r
    else if decide ("payment_method" ∈ ADDED_FIELDS) then
      dset r "payment_method" (Val.str PAYMENT_METHOD)
    else r
  let r := setdefault r "signed_date_time" (Val.str ts)
  let r := setdefault r "transaction_uuid" (Val.str uu)
  r

/-- `CyberSource._create_result`: configuration-derived fields, amount
formatting (`AMOUNT_FORMAT` is not `None`), then defaults. -/
def createResult (cfg : Config) (ts uu : String) (data : Dict) :
    Except PyErr Dict :=
  let r := dset data "profile_id" (Val.str cfg.profile_id)
  let r := dset r "access_key" (Val.str cfg.access_key)
  let r := dset r "transaction_type"
    (Val.str (if cfg.auto_capture then CAPTURE else AUTH))
  let r := if decide ("merchant_id" ∈ ADDED_FIELDS) then
    dset r "merchant_id" (Val.str cfg.merchant_id) else r
  match formatAmount r with
  | Except.error e => Except.error e
  | Except.ok r => Except.ok (addMissing ts uu r)

/-- The f-string list of `CyberSource.tosign`: `f'{f}={data[f]}'` for
each requested field, left to right, raising `ValidationError(E_NOKEY)`
at the first missing field. -/
def lookupAll (data : Dict) : List String → Except PyErr (List String)
  | [] => Except.ok []
  | f :: fs =>
    match dget data f with
    | none => Except.error (PyErr.validationError E_NOKEY)
    | some v =>
      match lookupAll data fs with
      | Except.error e => Except.error e
      | Except.ok rest => Except.ok ((f ++ "=" ++ valRender v) :: rest)

/-- `CyberSource.tosign` with an explicit field list. -/
def tosignFields (data : Dict) (fs : List String) : Except PyErr String :=
  match lookupAll data fs with
  | Except.error e => Except.error e
  | Except.ok vals => Except.ok (joinComma vals)

/-- `CyberSource.tosign`: when no field list is given it is derived from
`data['signed_field_names'].split(',')` (a missing key raises
`ValidationError(E_NOKEY)`; a non-string value would raise
`AttributeError` at `.split`). -/
def tosign (data : Dict) : Option (List String) → Except PyErr String
  | some fs => tosignFields data fs
  | none =>
    match dget data "signed_field_names" with
    | some (Val.str s) => tosignFields data (pySplitComma s)
    | some _ => Except.error (PyErr.attributeError "split")
    | none => Except.error (PyErr.validationError E_NOKEY)

/-- `CyberSource.sign`: base64 HMAC-SHA256 of the canonical string under
the configuration's secret key.  The digest computation is abstracted as
the function parameter `mac` (deterministic by construction); the
development never relies on any property of `mac` beyond determinism
and, where stated as a hypothesis, nonemptiness of its output. -/
def sign (mac : String → String → String) (cfg : Config) (data : Dict)
    (fields : Option (List String)) : Except PyErr String :=
  match tosign data fields with
  | Except.error e => Except.error e
  | Except.ok m => Except.ok (mac cfg.secret_key m)

/-- `CyberSource.validate`. -/
def validate (mac : String → String → String) (cfg : Config) (data : Dict) :
    Except PyErr Response :=
  match dget data "signature" with
  | none => Except.error (PyErr.validationError E_NO_SIGN_FIELD)
  | some sv =>
    if pyFalsy sv then Except.error (PyErr.validationError E_NO_SIGN_VALUE)
    else
      match sign mac cfg data none with
      | Except.error e => Except.error e
      | Except.ok s =>
        if sv = Val.str s then Except.ok (Response.mk data)
        else Except.error (PyErr.signatureError E_SIGNATURE)

/-- The signed-name set of `CyberSource.process`:
`set(f for f in fields if f in SIGNED_FIELDS)` updated with
`EXTRA_FIELDS` (the set is modelled as a deduplicated list). -/
def signedSetOf (fields : List String) : List String :=
  ((fields.filter (fun f => decide (f ∈ SIGNED_FIELDS))) ++ EXTRA_FIELDS).dedup

/-- The unsigned-name set of `CyberSource.process`:
`set(f for f in fields if f not in signed)`. -/
def unsignedSetOf (fields : List String) : List String :=
  (fields.filter (fun f => decide (f ∉ signedSetOf fields))).dedup

/-- `sorted(signed)` over the keys of the result at subset-computation
time. -/
def signedNamesOf (result : Dict) : List String :=
  sortStr (signedSetOf (dkeys result))

/-- `sorted(unsigned)` over the keys of the result at subset-computation
time. -/
def unsignedNamesOf (result : Dict) : List String :=
  sortStr (unsignedSetOf (dkeys result))

/-- The two assignments
`result['signed_field_names'] = ','.join(signed)` and
`result['unsigned_field_names'] = ','.join(unsigned)` of
`CyberSource.process` (both lists are computed from the keys before
either assignment). -/
def withNameFields (result : Dict) : Dict :=
  dset (dset result "signed_field_names"
      (Val.str (joinComma (signedNamesOf result))))
    "unsigned_field_names" (Val.str (joinComma (unsignedNamesOf result)))

/-- `CyberSource.process` (the `html=False` path).  Note that the
`REQUIRED_FIELDS.issubset(fields)` test in the source runs against the
live `result.keys()` view, i.e. after the two subset-name assignments,
which the model reflects by testing `withNameFields result`. -/
def process (mac : String → String → String) (cfg : Config)
    (ts uu : String) (data : Dict) : Except PyErr Dict :=
  if CHECK_FIELDS.all (fun f => dmem data f) then
    match createResult cfg ts uu data with
    | Except.error e => Except.error e
    | Except.ok result =>
      if REQUIRED_FIELDS.all (fun f => dmem (withNameFields result) f) then
        match sign mac cfg (withNameFields result)
            (some (signedNamesOf result)) with
        | Except.error e => Except.error e
        | Except.ok sg =>
          Except.ok (dset (withNameFields result) "signature" (Val.str sg))
      else Except.error (PyErr.validationError E_CHECK_FIELDS)
  else Except.error (PyErr.validationError E_REQ_FIELDS)

/-- The field names a built field set declares under `key` (used to state
the claims about `signed_field_names` / `unsigned_field_names`); the
empty string lists no names. -/
def namesListed (r : Dict) (key : String) : List String :=
  match dget r key with
  | some (Val.str s) => if s = "" then [] else pySplitComma s
  | _ => []

/-- Extract the field set from a successful `process` call (dummy value
on the error branch; used only to state closed concrete theorems). -/
def procOut (x : Except PyErr Dict) : Dict :=
  match x with
  | Except.ok r => r
  | Except.error _ => []

end Saleor

deriving instance DecidableEq for Except

namespace Saleor

set_option maxRecDepth 100000

/-- A concrete stand-in for the base64 HMAC-SHA256 digest used by the
closed witness theorems (any deterministic function with nonempty output
fits the hypotheses of the general theorems). -/
def mac0 (k m : String) : String :=
  String.mk ('#' :: (k ++ m).data)

/-- Concrete gateway configuration for the closed theorems. -/
def cfg0 : Config := ⟨"M1", "P1", "A1", "SK", false, true, "en"⟩

/-- Concrete wall-clock timestamp for the closed theorems. -/
def ts0 : String := "2020-01-01T00:00:00Z"

/-- Concrete fresh `uuid4` for the closed theorems. -/
def uu0 : String := "11111111-2222-3333-4444-555555555555"

/-- Minimal caller input passing the `CHECK_FIELDS` pre-check. -/
def d0 : Dict := [("amount", Val.str "100"), ("reference_number", Val.str "R1")]

/- Association-list lemmas. -/

theorem dget_dset_self (d : Dict) (k : String) (v : Val) :
    dget (dset d k v) k = some v := by
  induction d with
  | nil => simp [dget, dset]
  | cons p ps ih =>
    by_cases h : p.1 = k
    · simp [dget, dset, h]
    · simp [dget, dset, h, ih]

theorem dget_dset_ne (d : Dict) (k k' : String) (v : Val) (h : k' ≠ k) :
    dget (dset d k v) k' = dget d k' := by
  induction d with
  | nil => simp [dget, dset, Ne.symm h]
  | cons p ps ih =>
    by_cases hp : p.1 = k
    · simp [dget, dset, hp, Ne.symm h]
    · by_cases hp' : p.1 = k' <;> simp [dget, dset, hp, hp', ih, h]

theorem dmem_dset (d : Dict) (k k' : String) (v : Val) :
    dmem (dset d k v) k' = (decide (k' = k) || dmem d k') := by
  by_cases h : k' = k
  · simp [dmem, h, dget_dset_self]
  · simp [dmem, h, dget_dset_ne d k k' v h]

theorem mem_dkeys_iff_dmem (d : Dict) (k : String) :
    k ∈ dkeys d ↔ dmem d k = true := by
  induction d with
  | nil => simp [dkeys, dmem, dget]
  | cons p ps ih =>
    by_cases h : p.1 = k
    · simp [dkeys, dmem, dget, h]
    · simpa [dkeys, dmem, dget, h, Ne.symm h] using ih

theorem mem_dkeys_dset (d : Dict) (k k' : String) (v : Val) :
    k' ∈ dkeys (dset d k v) ↔ k' = k ∨ k' ∈ dkeys d := by
  rw [mem_dkeys_iff_dmem, dmem_dset]
  simp [mem_dkeys_iff_dmem]

/- Round trip of comma joining and splitting. -/

theorem splitC_nocomma (x : List Char) (h : ',' ∉ x) : splitC x = [x] := by
  induction x with
  | nil => simp [splitC]
  | cons c cs ih =>
    have hc : ¬ c = ',' := fun hh => h (hh ▸ List.mem_cons_self c cs)
    have hcs : ',' ∉ cs := fun hh => h (List.mem_cons_of_mem c hh)
    simp [splitC, hc, ih hcs]

theorem splitC_append (x rest : List Char) (h : ',' ∉ x) :
    splitC (x ++ ',' :: rest) = x :: splitC rest := by
  induction x with
  | nil => simp [splitC]
  | cons c cs ih =>
    have hc : ¬ c = ',' := fun hh => h (hh ▸ List.mem_cons_self c cs)
    have hcs : ',' ∉ cs := fun hh => h (List.mem_cons_of_mem c hh)
    simp [splitC, hc, ih hcs]

theorem splitC_joinC (l : List (List Char)) (hne : l ≠ [])
    (h : ∀ x ∈ l, ',' ∉ x) : splitC (joinC l) = l := by
  induction l with
  | nil => exact absurd rfl hne
  | cons x xs ih =>
    cases xs with
    | nil => simpa [joinC] using splitC_nocomma x (h x (by simp))
    | cons y ys =>
      rw [joinC, splitC_append x _ (h x (by simp)),
        ih (by simp) (fun z hz => h z (List.mem_cons_of_mem x hz))]

theorem mk_data_eq (s : String) : String.mk s.data = s := rfl

theorem pySplitComma_joinComma (l : List String) (hne : l ≠ [])
    (h : ∀ s ∈ l, ',' ∉ s.data) : pySplitComma (joinComma l) = l := by
  unfold pySplitComma joinComma
  rw [show (String.mk (joinC (l.map String.data))).data
      = joinC (l.map String.data) from rfl]
  rw [splitC_joinC (l.map String.data) (by simp [hne]) ?hc]
  case hc =>
    intro x hx
    obtain ⟨s, hs, rfl⟩ := List.mem_map.mp hx
    exact h s hs
  rw [List.map_map, show (String.mk ∘ String.data) = id from funext mk_data_eq,
    List.map_id]

/- Sorting preserves membership. -/

theorem mem_insortStr (a x : String) (l : List String) :
    a ∈ insortStr x l ↔ a = x ∨ a ∈ l := by
  induction l with
  | nil => simp [insortStr]
  | cons y ys ih =>
    by_cases hc : strLt x y = true
    · simp [insortStr, hc]
    · simp [insortStr, hc, ih]
      tauto

theorem mem_sortStr (a : String) (l : List String) :
    a ∈ sortStr l ↔ a ∈ l := by
  induction l with
  | nil => simp [sortStr]
  | cons x xs ih =>
    rw [show sortStr (x :: xs) = insortStr x (sortStr xs) from rfl,
      mem_insortStr]
    simp [ih]

/- Canonical-string lookups. -/

theorem lookupAll_congr (d e : Dict) (fs : List String)
    (h : ∀ f ∈ fs, dget d f = dget e f) :
    lookupAll d fs = lookupAll e fs := by
  induction fs with
  | nil => rfl
  | cons f fs ih =>
    simp only [lookupAll]
    rw [h f (List.mem_cons_self f fs),
      ih (fun g hg => h g (List.mem_cons_of_mem f hg))]

theorem lookupAll_dset_notmem (d : Dict) (k : String) (v : Val)
    (fs : List String) (h : k ∉ fs) :
    lookupAll (dset d k v) fs = lookupAll d fs :=
  lookupAll_congr _ _ fs
    (fun f hf => dget_dset_ne d k f v (fun he => h (he ▸ hf)))

theorem lookupAll_isOk (d : Dict) (fs : List String)
    (h : ∀ f ∈ fs, dmem d f = true) :
    ∃ vals, lookupAll d fs = Except.ok vals := by
  induction fs with
  | nil => exact ⟨[], rfl⟩
  | cons f fs ih =>
    obtain ⟨vals, hv⟩ := ih (fun g hg => h g (List.mem_cons_of_mem f hg))
    have hf := h f (List.mem_cons_self f fs)
    simp only [dmem, Option.isSome_iff_exists] at hf
    obtain ⟨v, hv'⟩ := hf
    exact ⟨(f ++ "=" ++ valRender v) :: vals, by simp [lookupAll, hv', hv]⟩

/- Structure of successful `process` calls. -/

theorem process_ok_shape (mac : String → String → String) (cfg : Config)
    (ts uu : String) (data result : Dict)
    (hp : process mac cfg ts uu data = Except.ok result) :
    ∃ r0 sg, createResult cfg ts uu data = Except.ok r0 ∧
      sign mac cfg (withNameFields r0) (some (signedNamesOf r0))
        = Except.ok sg ∧
      result = dset (withNameFields r0) "signature" (Val.str sg) := by
  unfold process at hp
  split at hp
  · cases hcr : createResult cfg ts uu data with
    | error e => rw [hcr] at hp; simp at hp
    | ok r0 =>
      rw [hcr] at hp
      dsimp only at hp
      split at hp
      · cases hs : sign mac cfg (withNameFields r0)
            (some (signedNamesOf r0)) with
        | error e => rw [hs] at hp; simp at hp
        | ok sg =>
          rw [hs] at hp
          dsimp only at hp
          injection hp with hp
          exact ⟨r0, sg, rfl, hs, hp.symm⟩
      · simp at hp
  · simp at hp

theorem mem_signedSetOf (ks : List String) (s : String) :
    s ∈ signedSetOf ks ↔ (s ∈ ks ∧ s ∈ SIGNED_FIELDS) ∨ s ∈ EXTRA_FIELDS := by
  unfold signedSetOf
  rw [List.mem_dedup, List.mem_append, List.mem_filter]
  simp

theorem mem_signedNamesOf (r : Dict) (s : String) :
    s ∈ signedNamesOf r ↔
      (s ∈ dkeys r ∧ s ∈ SIGNED_FIELDS) ∨ s ∈ EXTRA_FIELDS := by
  unfold signedNamesOf
  rw [mem_sortStr, mem_signedSetOf]

theorem mem_unsignedNamesOf (r : Dict) (s : String) :
    s ∈ unsignedNamesOf r ↔
      s ∈ dkeys r ∧ s ∉ signedSetOf (dkeys r) := by
  unfold unsignedNamesOf unsignedSetOf
  rw [mem_sortStr, List.mem_dedup, List.mem_filter]
  simp

theorem signedFields_nocomma :
    ∀ s ∈ SIGNED_FIELDS ++ EXTRA_FIELDS, ',' ∉ s.data := by decide

theorem signedNamesOf_nocomma (r : Dict) :
    ∀ s ∈ signedNamesOf r, ',' ∉ s.data := by
  intro s hs
  rcases (mem_signedNamesOf r s).mp hs with ⟨_, h⟩ | h
  · exact signedFields_nocomma s (List.mem_append_left _ h)
  · exact signedFields_nocomma s (List.mem_append_right _ h)

theorem sfn_mem_signedNamesOf (r : Dict) :
    "signed_field_names" ∈ signedNamesOf r :=
  (mem_signedNamesOf r _).mpr (Or.inr (by decide))

theorem ufn_mem_signedNamesOf (r : Dict) :
    "unsigned_field_names" ∈ signedNamesOf r :=
  (mem_signedNamesOf r _).mpr (Or.inr (by decide))

theorem signedNamesOf_ne_nil (r : Dict) : signedNamesOf r ≠ [] :=
  List.ne_nil_of_mem (sfn_mem_signedNamesOf r)

theorem signature_notmem_signedNamesOf (r : Dict) :
    "signature" ∉ signedNamesOf r := by
  intro h
  rcases (mem_signedNamesOf r _).mp h with ⟨_, h⟩ | h
  · exact absurd h (by decide)
  · exact absurd h (by decide)

theorem dget_withNameFields_sfn (r : Dict) :
    dget (withNameFields r) "signed_field_names"
      = some (Val.str (joinComma (signedNamesOf r))) := by
  unfold withNameFields
  rw [dget_dset_ne _ _ _ _ (by decide), dget_dset_self]

theorem dget_withNameFields_ufn (r : Dict) :
    dget (withNameFields r) "unsigned_field_names"
      = some (Val.str (joinComma (unsignedNamesOf r))) := by
  unfold withNameFields
  rw [dget_dset_self]

theorem dget_withNameFields_ne (r : Dict) (k : String)
    (h1 : k ≠ "signed_field_names") (h2 : k ≠ "unsigned_field_names") :
    dget (withNameFields r) k = dget r k := by
  unfold withNameFields
  rw [dget_dset_ne _ _ _ _ h2, dget_dset_ne _ _ _ _ h1]

theorem sign_some (mac : String → String → String) (cfg : Config)
    (d : Dict) (fs : List String) :
    sign mac cfg d (some fs)
      = match lookupAll d fs with
        | Except.error e => Except.error e
        | Except.ok vals => Except.ok (mac cfg.secret_key (joinComma vals)) := by
  unfold sign
  rw [show tosign d (some fs) = tosignFields d fs from rfl]
  unfold tosignFields
  cases lookupAll d fs <;> rfl

theorem sign_none_of_sfn (mac : String → String → String) (cfg : Config)
    (d : Dict) (s : String)
    (h : dget d "signed_field_names" = some (Val.str s)) :
    sign mac cfg d none
      = match lookupAll d (pySplitComma s) with
        | Except.error e => Except.error e
        | Except.ok vals => Except.ok (mac cfg.secret_key (joinComma vals)) := by
  unfold sign tosign
  rw [h]
  dsimp only
  unfold tosignFields
  cases lookupAll d (pySplitComma s) <;> rfl

theorem validate_eq_of_sig (mac : String → String → String) (cfg : Config)
    (d : Dict) (sg : String) (hsg : sg ≠ "")
    (h1 : dget d "signature" = some (Val.str sg)) :
    validate mac cfg d
      = match sign mac cfg d none with
        | Except.error e => Except.error e
        | Except.ok s =>
          if Val.str sg = Val.str s then Except.ok (Response.mk d)
          else Except.error (PyErr.signatureError E_SIGNATURE) := by
  unfold validate
  rw [h1]
  dsimp only
  rw [if_neg (by simp [pyFalsy, hsg])]

/-- Core of the verification argument: `validate` succeeds on any map
that carries the signature `sg` produced over the field list `signedL`
of the snapshot `r2`, declares that list under `signed_field_names`, and
agrees with `r2` on the listed fields. -/
theorem validate_ok_of_signed (mac : String → String → String)
    (cfg : Config) (r2 : Dict) (signedL : List String) (sg : String)
    (d : Dict) (hsg : sg ≠ "")
    (h1 : dget d "signature" = some (Val.str sg))
    (h3 : dget d "signed_field_names"
      = some (Val.str (joinComma signedL)))
    (hne : signedL ≠ []) (hnc : ∀ s ∈ signedL, ',' ∉ s.data)
    (h4 : lookupAll d signedL = lookupAll r2 signedL)
    (h5 : sign mac cfg r2 (some signedL) = Except.ok sg) :
    validate mac cfg d = Except.ok (Response.mk d) := by
  rw [sign_some] at h5
  cases hl : lookupAll r2 signedL with
  | error e => rw [hl] at h5; simp at h5
  | ok vals =>
    rw [hl] at h5
    dsimp only at h5
    injection h5 with h5
    rw [validate_eq_of_sig mac cfg d sg hsg h1,
      sign_none_of_sfn mac cfg d (joinComma signedL) h3,
      pySplitComma_joinComma signedL hne hnc, h4, hl]
    simp [h5]

theorem mac0_ne_empty (k m : String) : mac0 k m ≠ "" := by
  intro h
  have hd := congrArg String.data h
  simp [mac0] at hd

/-- C1.  Signature round-trip: for every input field map that passes the
pre-check and every configuration, validating the field set produced by
`CyberSource.process` with the same configuration succeeds (raises no
error) and returns a `Response` wrapping that field set.  (Stated for
every input and configuration on which `process` returns a field set,
i.e. passes the pre-check and the subsequent build steps, and for every
digest function with nonempty output, as base64 HMAC-SHA256 is.) -/
theorem signature_roundtrip (mac : String → String → String) (cfg : Config)
    (ts uu : String) (data result : Dict)
    (hmac : ∀ k m, mac k m ≠ "")
    (hp : process mac cfg ts uu data = Except.ok result) :
    validate mac cfg result = Except.ok (Response.mk result) := by
  obtain ⟨r0, sg, hcr, hs, hres⟩ :=
    process_ok_shape mac cfg ts uu data result hp
  subst hres
  have hsg : sg ≠ "" := by
    rw [sign_some] at hs
    cases hl : lookupAll (withNameFields r0) (signedNamesOf r0) with
    | error e => rw [hl] at hs; simp at hs
    | ok vals =>
      rw [hl] at hs
      dsimp only at hs
      injection hs with hs
      rw [← hs]
      exact hmac _ _
  exact validate_ok_of_signed mac cfg (withNameFields r0)
    (signedNamesOf r0) sg _ hsg
    (dget_dset_self _ _ _)
    (by rw [dget_dset_ne _ _ _ _ (by decide)]
        exact dget_withNameFields_sfn r0)
    (signedNamesOf_ne_nil r0)
    (signedNamesOf_nocomma r0)
    (lookupAll_dset_notmem _ _ _ _ (signature_notmem_signedNamesOf r0))
    hs

/-- The concrete field set built from `d0` under `cfg0`. -/
def r1c : Dict := procOut (process mac0 cfg0 ts0 uu0 d0)

/-- Witness for C1: the round trip at the concrete build `r1c`. -/
theorem signature_roundtrip_witness :
    validate mac0 cfg0 r1c = Except.ok (Response.mk r1c) :=
  signature_roundtrip mac0 cfg0 ts0 uu0 d0 r1c mac0_ne_empty (by decide)

/- C3: the verification failure taxonomy. -/

/-- An inbound map with a truthy signature but no `signed_field_names`. -/
def d3 : Dict := [("signature", Val.str "x")]

/-- C3 counterexample: on `d3` the signature key is present and truthy,
so by the claim `validate` should either fail with `SignatureError` or
return a `Response`; instead the recomputation itself fails and
`validate` raises the missing-key `ValidationError(E_NOKEY)`. -/
theorem validate_taxonomy_counterexample :
    dget d3 "signature" = some (Val.str "x") ∧
    pyFalsy (Val.str "x") = false ∧
    validate mac0 cfg0 d3
      = Except.error (PyErr.validationError E_NOKEY) :=
  ⟨by decide, by decide, by decide⟩

/-- C3 (amended): for every inbound field map, `validate` fails with the
missing-signature-field error when `signature` is absent; with the
empty-signature error when it is present but falsy; when it is present
and truthy it propagates the error of the signature recomputation if
that fails (in particular the missing-key `ValidationError(E_NOKEY)`
when `signed_field_names` or a field it names is absent); it fails with
`SignatureError` when the recomputation succeeds with a value different
from the supplied one; and otherwise returns a `Response` wrapping the
field map. -/
theorem validate_failure_taxonomy (mac : String → String → String)
    (cfg : Config) (data : Dict) :
    (dget data "signature" = none →
      validate mac cfg data
        = Except.error (PyErr.validationError E_NO_SIGN_FIELD)) ∧
    (∀ v, dget data "signature" = some v → pyFalsy v = true →
      validate mac cfg data
        = Except.error (PyErr.validationError E_NO_SIGN_VALUE)) ∧
    (∀ v e, dget data "signature" = some v → pyFalsy v = false →
      sign mac cfg data none = Except.error e →
      validate mac cfg data = Except.error e) ∧
    (∀ v s, dget data "signature" = some v → pyFalsy v = false →
      sign mac cfg data none = Except.ok s → v ≠ Val.str s →
      validate mac cfg data
        = Except.error (PyErr.signatureError E_SIGNATURE)) ∧
    (∀ v s, dget data "signature" = some v → pyFalsy v = false →
      sign mac cfg data none = Except.ok s → v = Val.str s →
      validate mac cfg data = Except.ok (Response.mk data)) := by
  refine ⟨?_, ?_, ?_, ?_, ?_⟩
  · intro h
    unfold validate
    rw [h]
  · intro v h hv
    unfold validate
    rw [h]
    dsimp only
    rw [if_pos hv]
  · intro v e h hv hsgn
    unfold validate
    rw [h]
    dsimp only
    rw [if_neg (by simp [hv]), hsgn]
  · intro v s h hv hsgn hne
    unfold validate
    rw [h]
    dsimp only
    rw [if_neg (by simp [hv]), hsgn]
    dsimp only
    rw [if_neg hne]
  · intro v s h hv hsgn heq
    unfold validate
    rw [h]
    dsimp only
    rw [if_neg (by simp [hv]), hsgn]
    dsimp only
    rw [if_pos heq]

/-- Witness for C3: the absent-signature clause at the empty map. -/
theorem validate_failure_taxonomy_witness :
    validate mac0 cfg0 []
      = Except.error (PyErr.validationError E_NO_SIGN_FIELD) :=
  (validate_failure_taxonomy mac0 cfg0 []).1 rfl

/- C9: unsigned-field independence. -/

theorem sign_ok_ne_empty (mac : String → String → String) (cfg : Config)
    (d : Dict) (fs : List String) (sg : String)
    (hmac : ∀ k m, mac k m ≠ "")
    (hs : sign mac cfg d (some fs) = Except.ok sg) : sg ≠ "" := by
  rw [sign_some] at hs
  cases hl : lookupAll d fs with
  | error e => rw [hl] at hs; simp at hs
  | ok vals =>
    rw [hl] at hs
    dsimp only at hs
    injection hs with hs
    rw [← hs]
    exact hmac _ _

theorem joinComma_ne_empty (l : List String) (hne : l ≠ [])
    (hnc : ∀ s ∈ l, ',' ∉ s.data) (s : String) (hs : s ∈ l)
    (hsne : s ≠ "") : joinComma l ≠ "" := by
  intro h
  have hr := pySplitComma_joinComma l hne hnc
  rw [h, show pySplitComma "" = [""] from rfl] at hr
  rw [← hr] at hs
  simp at hs
  exact hsne hs

theorem namesListed_sfn_set (r0 : Dict) (sg : String) :
    namesListed (dset (withNameFields r0) "signature" (Val.str sg))
      "signed_field_names" = signedNamesOf r0 := by
  unfold namesListed
  rw [dget_dset_ne _ _ _ _ (by decide), dget_withNameFields_sfn]
  dsimp only
  rw [if_neg (joinComma_ne_empty _ (signedNamesOf_ne_nil r0)
    (signedNamesOf_nocomma r0) _ (sfn_mem_signedNamesOf r0) (by decide))]
  exact pySplitComma_joinComma _ (signedNamesOf_ne_nil r0)
    (signedNamesOf_nocomma r0)

/-- C9 counterexample: the computed `signature` field is itself a field
of the built set that is not listed in `signed_field_names`, yet
changing it (without re-signing) makes `validate` fail, contradicting
the claim as stated. -/
theorem unsigned_independence_counterexample :
    "signature" ∈ dkeys r1c ∧
    "signature" ∉ namesListed r1c "signed_field_names" ∧
    validate mac0 cfg0 (dset r1c "signature" (Val.str "XX"))
      = Except.error (PyErr.signatureError E_SIGNATURE) :=
  ⟨by decide, by decide, by decide⟩

/-- C9 (amended): for every field set produced and signed by
`CyberSource.process`, changing the value of any field other than
`signature` that is not listed in its `signed_field_names` value,
without recomputing the signature, leaves `validate` succeeding on the
mutated field set. -/
theorem unsigned_field_independence (mac : String → String → String)
    (cfg : Config) (ts uu : String) (data result : Dict) (f : String)
    (v : Val) (hmac : ∀ k m, mac k m ≠ "")
    (hp : process mac cfg ts uu data = Except.ok result)
    (hf : f ∉ namesListed result "signed_field_names")
    (hsig : f ≠ "signature") :
    validate mac cfg (dset result f v)
      = Except.ok (Response.mk (dset result f v)) := by
  obtain ⟨r0, sg, hcr, hs, hres⟩ :=
    process_ok_shape mac cfg ts uu data result hp
  subst hres
  rw [namesListed_sfn_set r0 sg] at hf
  have hfsfn : f ≠ "signed_field_names" :=
    fun h => hf (h ▸ sfn_mem_signedNamesOf r0)
  have hfufn : f ≠ "unsigned_field_names" :=
    fun h => hf (h ▸ ufn_mem_signedNamesOf r0)
  refine validate_ok_of_signed mac cfg (withNameFields r0)
    (signedNamesOf r0) sg _
    (sign_ok_ne_empty mac cfg _ _ sg hmac hs) ?_ ?_
    (signedNamesOf_ne_nil r0) (signedNamesOf_nocomma r0) ?_ hs
  · rw [dget_dset_ne _ _ _ _ (Ne.symm hsig), dget_dset_self]
  · rw [dget_dset_ne _ _ _ _ (Ne.symm hfsfn), dget_dset_ne _ _ _ _ (by decide),
      dget_withNameFields_sfn]
  · rw [lookupAll_dset_notmem _ _ _ _ hf,
      lookupAll_dset_notmem _ _ _ _ (signature_notmem_signedNamesOf r0)]

/-- Caller input carrying a field outside `SIGNED_FIELDS`. -/
def d9 : Dict :=
  [("amount", Val.str "100"), ("reference_number", Val.str "R1"),
   ("custom_note", Val.str "hi")]

/-- The concrete field set built from `d9` under `cfg0`. -/
def r9c : Dict := procOut (process mac0 cfg0 ts0 uu0 d9)

/-- Witness for C9: mutating the unsigned field `custom_note` of a
concrete build leaves `validate` succeeding. -/
theorem unsigned_field_independence_witness :
    validate mac0 cfg0 (dset r9c "custom_note" (Val.str "bye"))
      = Except.ok (Response.mk (dset r9c "custom_note" (Val.str "bye"))) :=
  unsigned_field_independence mac0 cfg0 ts0 uu0 d9 r9c "custom_note"
    (Val.str "bye") mac0_ne_empty (by decide) (by decide) (by decide)

/- C10: verification trusts the payload's own field list. -/

/-- The verification outcome with the wrapped data forgotten (two runs
of `validate` share a verdict when both fail with the same error or both
succeed). -/
def verdict (x : Except PyErr Response) : Except PyErr Unit :=
  match x with
  | Except.ok _ => Except.ok ()
  | Except.error e => Except.error e

/-- C10: for every two inbound field maps that agree on the `signature`
key, on the `signed_field_names` value, and on the value of every field
named in that `signed_field_names` value, `validate` produces the same
verification outcome; consequently a field the payload does not itself
list as signed can be altered or omitted without causing a signature
mismatch. -/
theorem validate_trusts_field_list (mac : String → String → String)
    (cfg : Config) (d1 d2 : Dict)
    (hsig : dget d1 "signature" = dget d2 "signature")
    (hsfn : dget d1 "signed_field_names" = dget d2 "signed_field_names")
    (hfields : ∀ s f, dget d1 "signed_field_names" = some (Val.str s) →
      f ∈ pySplitComma s → dget d1 f = dget d2 f) :
    verdict (validate mac cfg d1) = verdict (validate mac cfg d2) := by
  unfold validate
  rw [← hsig]
  cases h : dget d1 "signature" with
  | none => rfl
  | some v =>
    dsimp only
    by_cases hv : pyFalsy v = true
    · rw [if_pos hv, if_pos hv]
    · rw [if_neg hv, if_neg hv]
      have hsgn : sign mac cfg d1 none = sign mac cfg d2 none := by
        unfold sign tosign
        rw [← hsfn]
        cases hn : dget d1 "signed_field_names" with
        | none => rfl
        | some w =>
          cases w with
          | str s =>
            dsimp only
            unfold tosignFields
            rw [lookupAll_congr d1 d2 (pySplitComma s)
              (fun f hf => hfields s f hn hf)]
          | num q => rfl
          | other => rfl
      rw [← hsgn]
      cases sign mac cfg d1 none with
      | error e => rfl
      | ok s =>
        dsimp only
        by_cases he : v = Val.str s
        · rw [if_pos he, if_pos he]; rfl
        · rw [if_neg he, if_neg he]

/-- Two payloads agreeing on the signed list `a` and on `a`, differing
in the unlisted field `b`. -/
def dA : Dict :=
  [("signature", Val.str "S"), ("signed_field_names", Val.str "a"),
   ("a", Val.str "1"), ("b", Val.str "1")]

/-- Same as `dA` with the unlisted field `b` altered. -/
def dB : Dict :=
  [("signature", Val.str "S"), ("signed_field_names", Val.str "a"),
   ("a", Val.str "1"), ("b", Val.str "2")]

/-- Witness for C10 at the concrete pair `dA`, `dB`. -/
theorem validate_trusts_field_list_witness :
    verdict (validate mac0 cfg0 dA) = verdict (validate mac0 cfg0 dB) :=
  validate_trusts_field_list mac0 cfg0 dA dB rfl rfl
    (by
      intro s f hs hf
      have hs' : Val.str "a" = Val.str s := by
        have h2 : (some (Val.str "a") : Option Val) = some (Val.str s) := hs
        injection h2
      injection hs' with hs''
      subst hs''
      have hf' : f = "a" := by
        rw [show pySplitComma "a" = ["a"] from rfl] at hf
        simpa using hf
      subst hf'
      rfl)

/- C5: the signed/unsigned partition of a built field set. -/

theorem mem_dkeys_setdefault (r : Dict) (key : String) (v : Val)
    (k : String) (h : k ∈ dkeys (setdefault r key v)) :
    k = key ∨ k ∈ dkeys r := by
  unfold setdefault at h
  by_cases hc : dmem r key = true
  · rw [if_pos hc] at h; exact Or.inr h
  · rw [if_neg hc] at h; exact (mem_dkeys_dset r key k v).mp h

theorem pm_step_eq (r : Dict) :
    (if dmem r "payment_method" then r
     else if decide ("payment_method" ∈ ADDED_FIELDS) then
       dset r "payment_method" (Val.str PAYMENT_METHOD)
     else r)
    = setdefault r "payment_method" (Val.str PAYMENT_METHOD) := by
  unfold setdefault
  rw [show (decide ("payment_method" ∈ ADDED_FIELDS)) = true from by decide]
  by_cases h : dmem r "payment_method" = true <;> simp [h]

theorem addMissing_eq_setdefaults (ts uu : String) (r : Dict) :
    addMissing ts uu r
      = setdefault (setdefault (setdefault (setdefault (setdefault r
          "currency" (Val.str CURRENCY)) "locale" (Val.str LOCALE))
          "payment_method" (Val.str PAYMENT_METHOD))
          "signed_date_time" (Val.str ts))
          "transaction_uuid" (Val.str uu) := by
  unfold addMissing
  dsimp only
  rw [pm_step_eq]

/-- The field names `_create_result` can introduce beyond the caller's
input (bookkeeping list for the key-provenance lemma below). -/
def INJECTED_KEYS : List String :=
  ["profile_id", "access_key", "transaction_type", "merchant_id",
   "amount", "currency", "locale", "payment_method", "signed_date_time",
   "transaction_uuid"]

theorem formatAmount_ok_shape (r r' : Dict)
    (h : formatAmount r = Except.ok r') :
    ∃ s, r' = dset r "amount" (Val.str s) := by
  unfold formatAmount at h
  cases hg : dget r "amount" with
  | none => rw [hg] at h; simp at h
  | some v =>
    rw [hg] at h
    dsimp only at h
    cases hf : formatAmountVal v with
    | error e => rw [hf] at h; simp at h
    | ok s =>
      rw [hf] at h
      dsimp only at h
      injection h with h
      exact ⟨s, h.symm⟩

theorem mem_dkeys_createResult (cfg : Config) (ts uu : String)
    (data r0 : Dict) (k : String)
    (h : createResult cfg ts uu data = Except.ok r0)
    (hk : k ∈ dkeys r0) : k ∈ INJECTED_KEYS ∨ k ∈ dkeys data := by
  unfold createResult at h
  dsimp only at h
  rw [show (decide ("merchant_id" ∈ ADDED_FIELDS)) = true from by decide,
    if_pos rfl] at h
  cases hfa : formatAmount (dset (dset (dset (dset data "profile_id"
      (Val.str cfg.profile_id)) "access_key" (Val.str cfg.access_key))
      "transaction_type" (Val.str (if cfg.auto_capture then CAPTURE else AUTH)))
      "merchant_id" (Val.str cfg.merchant_id)) with
  | error e => rw [hfa] at h; simp at h
  | ok r5 =>
    rw [hfa] at h
    dsimp only at h
    injection h with h
    obtain ⟨s, rfl⟩ := formatAmount_ok_shape _ _ hfa
    subst h
    rw [addMissing_eq_setdefaults] at hk
    rcases mem_dkeys_setdefault _ _ _ _ hk with h | hk
    · exact Or.inl (by rw [h]; decide)
    rcases mem_dkeys_setdefault _ _ _ _ hk with h | hk
    · exact Or.inl (by rw [h]; decide)
    rcases mem_dkeys_setdefault _ _ _ _ hk with h | hk
    · exact Or.inl (by rw [h]; decide)
    rcases mem_dkeys_setdefault _ _ _ _ hk with h | hk
    · exact Or.inl (by rw [h]; decide)
    rcases mem_dkeys_setdefault _ _ _ _ hk with h | hk
    · exact Or.inl (by rw [h]; decide)
    rcases (mem_dkeys_dset _ _ _ _).mp hk with h | hk
    · exact Or.inl (by rw [h]; decide)
    rcases (mem_dkeys_dset _ _ _ _).mp hk with h | hk
    · exact Or.inl (by rw [h]; decide)
    rcases (mem_dkeys_dset _ _ _ _).mp hk with h | hk
    · exact Or.inl (by rw [h]; decide)
    rcases (mem_dkeys_dset _ _ _ _).mp hk with h | hk
    · exact Or.inl (by rw [h]; decide)
    rcases (mem_dkeys_dset _ _ _ _).mp hk with h | hk
    · exact Or.inl (by rw [h]; decide)
    exact Or.inr hk

theorem injected_nocomma : ∀ s ∈ INJECTED_KEYS, ',' ∉ s.data ∧ s ≠ "" := by
  decide

theorem extra_subset_signed : ∀ s ∈ EXTRA_FIELDS, s ∈ SIGNED_FIELDS := by
  decide

theorem namesListed_join (r : Dict) (key : String) (l : List String)
    (hget : dget r key = some (Val.str (joinComma l)))
    (hnc : ∀ s ∈ l, ',' ∉ s.data) (hne : "" ∉ l) :
    namesListed r key = l := by
  unfold namesListed
  rw [hget]
  dsimp only
  by_cases hl : l = []
  · subst hl
    rw [if_pos (show joinComma [] = "" from rfl)]
  · rw [if_neg ?hjoin]
    · exact pySplitComma_joinComma l hl hnc
    case hjoin =>
      intro h
      have hr := pySplitComma_joinComma l hl hnc
      rw [h, show pySplitComma "" = [""] from rfl] at hr
      exact hne (hr ▸ List.mem_singleton_self "")

/-- C5 counterexample: in the field set built from `d0`, the computed
`signature` key belongs to the returned field set but is named neither
by `signed_field_names` nor by `unsigned_field_names`, so the two lists
do not exhaust the keys as the claim states. -/
theorem partition_counterexample :
    "signature" ∈ dkeys r1c ∧
    ("signature" ∈ namesListed r1c "signed_field_names"
      ∨ "signature" ∈ namesListed r1c "unsigned_field_names") = False :=
  ⟨by decide, by simp; exact ⟨by decide, by decide⟩⟩

/-- C5 (amended): for every field set returned by `CyberSource.process`
on an input whose field names are comma-free and nonempty, the names
listed in `signed_field_names` and in `unsigned_field_names` are
disjoint subsets of the keys of the returned field set, together they
exhaust those keys with the single exception of the `signature` field
added after signing, and both `signed_field_names` and
`unsigned_field_names` are themselves members of the signed list. -/
theorem subset_partition (mac : String → String → String) (cfg : Config)
    (ts uu : String) (data result : Dict)
    (hp : process mac cfg ts uu data = Except.ok result)
    (hkeys : ∀ k ∈ dkeys data, ',' ∉ k.data ∧ k ≠ "") :
    (∀ f, f ∈ namesListed result "signed_field_names" →
      f ∉ namesListed result "unsigned_field_names") ∧
    (∀ f, f ∈ namesListed result "signed_field_names" →
      f ∈ dkeys result) ∧
    (∀ f, f ∈ namesListed result "unsigned_field_names" →
      f ∈ dkeys result) ∧
    (∀ k, k ∈ dkeys result → k ≠ "signature" →
      k ∈ namesListed result "signed_field_names"
        ∨ k ∈ namesListed result "unsigned_field_names") ∧
    "signed_field_names" ∈ namesListed result "signed_field_names" ∧
    "unsigned_field_names" ∈ namesListed result "signed_field_names" := by
  obtain ⟨r0, sg, hcr, hs, hres⟩ :=
    process_ok_shape mac cfg ts uu data result hp
  subst hres
  have hsl : namesListed (dset (withNameFields r0) "signature"
      (Val.str sg)) "signed_field_names" = signedNamesOf r0 :=
    namesListed_sfn_set r0 sg
  have hulnc : ∀ s ∈ unsignedNamesOf r0, ',' ∉ s.data ∧ s ≠ "" := by
    intro s hsmem
    obtain ⟨hmem, -⟩ := (mem_unsignedNamesOf r0 s).mp hsmem
    rcases mem_dkeys_createResult cfg ts uu data r0 s hcr hmem with h | h
    · exact injected_nocomma s h
    · exact hkeys s h
  have hul : namesListed (dset (withNameFields r0) "signature"
      (Val.str sg)) "unsigned_field_names" = unsignedNamesOf r0 := by
    refine namesListed_join _ _ _ ?_ (fun s hsm => (hulnc s hsm).1)
      (fun hsm => (hulnc "" hsm).2 rfl)
    rw [dget_dset_ne _ _ _ _ (by decide)]
    exact dget_withNameFields_ufn r0
  rw [hsl, hul]
  have hkeyres : ∀ k, k ∈ dkeys (dset (withNameFields r0) "signature"
      (Val.str sg)) ↔ k = "signature" ∨ k = "unsigned_field_names"
        ∨ k = "signed_field_names" ∨ k ∈ dkeys r0 := by
    intro k
    rw [mem_dkeys_dset]
    unfold withNameFields
    rw [mem_dkeys_dset, mem_dkeys_dset]
  refine ⟨?_, ?_, ?_, ?_, sfn_mem_signedNamesOf r0, ufn_mem_signedNamesOf r0⟩
  · intro f hfs hfu
    obtain ⟨-, hnot⟩ := (mem_unsignedNamesOf r0 f).mp hfu
    exact hnot ((mem_sortStr f _).mp hfs)
  · intro f hfs
    rw [hkeyres]
    rcases (mem_signedNamesOf r0 f).mp hfs with ⟨hmem, -⟩ | hextra
    · exact Or.inr (Or.inr (Or.inr hmem))
    · have hor : f = "signed_field_names" ∨ f = "unsigned_field_names" := by
        simpa [EXTRA_FIELDS] using hextra
      rcases hor with h | h
      · exact Or.inr (Or.inr (Or.inl h))
      · exact Or.inr (Or.inl h)
  · intro f hfu
    rw [hkeyres]
    obtain ⟨hmem, -⟩ := (mem_unsignedNamesOf r0 f).mp hfu
    exact Or.inr (Or.inr (Or.inr hmem))
  · intro k hk hksig
    rcases (hkeyres k).mp hk with h | h
    · exact absurd h hksig
    rcases h with h | h
    · exact Or.inl (h ▸ ufn_mem_signedNamesOf r0)
    rcases h with h | h
    · exact Or.inl (h ▸ sfn_mem_signedNamesOf r0)
    by_cases hsf : k ∈ SIGNED_FIELDS
    · exact Or.inl ((mem_signedNamesOf r0 k).mpr (Or.inl ⟨h, hsf⟩))
    · refine Or.inr ((mem_unsignedNamesOf r0 k).mpr ⟨h, fun hmem => ?_⟩)
      rcases (mem_signedSetOf (dkeys r0) k).mp hmem with ⟨-, hs'⟩ | hex
      · exact hsf hs'
      · exact hsf (extra_subset_signed k hex)

/-- Witness for C5: the subset-name membership clause at the concrete
build `r1c`. -/
theorem subset_partition_witness :
    "signed_field_names" ∈ namesListed r1c "signed_field_names" :=
  (subset_partition mac0 cfg0 ts0 uu0 d0 r1c (by decide)
    (by decide)).2.2.2.2.1

/- C6: the required-field gate. -/

/-- C6 counterexample: `currency` is one of the required fields and is
missing from the input `d0`, yet `process` succeeds (it injects the
default), so omitting a required field does not in general make the
build fail; moreover when the pre-check does fail (see `precheck_gate`)
the error message is the fixed string `E_REQ_FIELDS`, which names no
field. -/
theorem required_gate_counterexample :
    "currency" ∈ REQUIRED_FIELDS ∧ dget d0 "currency" = none ∧
    (process mac0 cfg0 ts0 uu0 d0).isOk = true :=
  ⟨by decide, by decide, by decide⟩

/-- C6 (amended): for every input field map missing one of the
pre-check fields `CHECK_FIELDS = REQUIRED_FIELDS - ADDED_FIELDS`
(that is, `amount` or `reference_number`), `CyberSource.process` fails
with the generic required-fields validation error
`'Required field(s) are missing.'` — which names no particular field —
and it does so before defaults are filled in and before any signature
is computed (the theorem holds whatever the other field values are,
including unformattable amounts); the remaining required fields are
injected automatically, so omitting them alone does not fail. -/
theorem precheck_gate (mac : String → String → String) (cfg : Config)
    (ts uu : String) (data : Dict) (f : String)
    (hf : f ∈ CHECK_FIELDS) (hmiss : dget data f = none) :
    process mac cfg ts uu data
      = Except.error (PyErr.validationError E_REQ_FIELDS) := by
  unfold process
  rw [if_neg ?hall]
  case hall =>
    intro hall
    have hm := List.all_eq_true.mp hall f hf
    simp [dmem, hmiss] at hm

/-- Witness for C6: an input without `amount` fails with the generic
pre-check error. -/
theorem precheck_gate_witness :
    process mac0 cfg0 ts0 uu0 [("reference_number", Val.str "R1")]
      = Except.error (PyErr.validationError E_REQ_FIELDS) :=
  precheck_gate mac0 cfg0 ts0 uu0 [("reference_number", Val.str "R1")]
    "amount" (by decide) (by decide)

/- C7: amount formatting. -/

/-- Input whose `amount` is a string that `decimal.Decimal` rejects. -/
def d7 : Dict :=
  [("amount", Val.str "abc"), ("reference_number", Val.str "R1")]

/-- C7: at the failing input `d7` (amount `'abc'`, not
decimal-convertible), `process` propagates `decimal.InvalidOperation` —
raised by `Decimal('abc')` and not caught by the source's
`except (TypeError, ValueError)` clause — rather than failing with the
amount-format validation error `ValidationError(E_AMOUNT)` the claim
describes. -/
theorem amount_invalid_operation_escape :
    process mac0 cfg0 ts0 uu0 d7 = Except.error PyErr.invalidOperation ∧
    PyErr.invalidOperation ≠ PyErr.validationError E_AMOUNT :=
  ⟨by decide, by decide⟩

/- C4: resolution of an ambiguous accept in the plugin. -/

/-- Modelled from the spec: the platform's transaction-kind enumeration
(`saleor.payment.TransactionKind` lies outside the gateway sources);
only the variants the plugin manipulates are included. -/
inductive TransactionKind where
  | AUTH
  | CAPTURE
  | CONFIRM
  | VOID
  | REFUND
  | ACTION_TO_CONFIRM
deriving DecidableEq

/-- The kind-resolution body of
`CyberSourceGatewayPlugin._confirm_payment` (plugin.py lines 311-325;
the preceding payment lookup does not influence this logic).  When the
inbound decision is in `Status.CONFIRM = {ACCEPT, REVIEW}` and the
requested kind is CAPTURE or CONFIRM, the source evaluates
`csapi.Status.CAPTURE`; the `Status` class defines no attribute
`CAPTURE`, so CPython raises `AttributeError` at that comparison. -/
def confirmPaymentKind (kind : TransactionKind) (data : Dict) :
    Except PyErr TransactionKind :=
  if data.isEmpty then Except.ok TransactionKind.ACTION_TO_CONFIRM
  else
    match dget data "decision" with
    | none => Except.ok TransactionKind.ACTION_TO_CONFIRM
    | some sv =>
      if valInStrSet sv STATUS_RETURN then
        if kind = TransactionKind.CAPTURE ∨ kind = TransactionKind.CONFIRM
        then
          Except.error (PyErr.attributeError
            "type object Status has no attribute CAPTURE")
        else Except.ok kind
      else Except.ok TransactionKind.ACTION_TO_CONFIRM

/-- C4: at the failing input — requested kind CAPTURE, inbound decision
ACCEPT — the resolution branch raises `AttributeError` (the source
reads the nonexistent `Status.CAPTURE`) instead of resolving to CAPTURE
or AUTH as the claim describes; the claim's other two clauses do match
the code: any other requested kind passes through unchanged under an
ACCEPT/REVIEW status, and a missing or non-ACCEPT/REVIEW status
resolves to ACTION_TO_CONFIRM. -/
theorem confirm_accept_capture_crash :
    confirmPaymentKind TransactionKind.CAPTURE
        [("decision", Val.str "ACCEPT")]
      = Except.error (PyErr.attributeError
          "type object Status has no attribute CAPTURE") ∧
    confirmPaymentKind TransactionKind.CONFIRM
        [("decision", Val.str "REVIEW")]
      = Except.error (PyErr.attributeError
          "type object Status has no attribute CAPTURE") ∧
    confirmPaymentKind TransactionKind.VOID
        [("decision", Val.str "ACCEPT")]
      = Except.ok TransactionKind.VOID ∧
    confirmPaymentKind TransactionKind.CAPTURE
        [("decision", Val.str "DECLINE")]
      = Except.ok TransactionKind.ACTION_TO_CONFIRM ∧
    confirmPaymentKind TransactionKind.CAPTURE [("req_amount", Val.str "1")]
      = Except.ok TransactionKind.ACTION_TO_CONFIRM :=
  ⟨rfl, rfl, rfl, rfl, rfl⟩

/- C8: entry with no valid client token.  Presence lemmas first. -/

theorem dmem_dset_self (r : Dict) (k : String) (v : Val) :
    dmem (dset r k v) k = true := by
  simp [dmem, dget_dset_self]

theorem dmem_setdefault (r : Dict) (key : String) (v : Val) (k : String) :
    dmem (setdefault r key v) k = (decide (k = key) || dmem r k) := by
  unfold setdefault
  by_cases hc : dmem r key = true
  · rw [if_pos hc]
    by_cases he : k = key
    · simp [he, hc]
    · simp [he]
  · rw [if_neg hc, dmem_dset]

theorem dmem_withNameFields (r : Dict) (k : String) :
    dmem (withNameFields r) k
      = (decide (k = "unsigned_field_names")
        || (decide (k = "signed_field_names") || dmem r k)) := by
  unfold withNameFields
  rw [dmem_dset, dmem_dset]

theorem createResult_ok_shape (cfg : Config) (ts uu : String)
    (data r0 : Dict) (h : createResult cfg ts uu data = Except.ok r0) :
    ∃ s, r0 = addMissing ts uu (dset (dset (dset (dset (dset data
      "profile_id" (Val.str cfg.profile_id)) "access_key"
      (Val.str cfg.access_key)) "transaction_type"
      (Val.str (if cfg.auto_capture then CAPTURE else AUTH)))
      "merchant_id" (Val.str cfg.merchant_id)) "amount" (Val.str s)) := by
  unfold createResult at h
  dsimp only at h
  rw [show (decide ("merchant_id" ∈ ADDED_FIELDS)) = true from by decide,
    if_pos rfl] at h
  cases hfa : formatAmount (dset (dset (dset (dset data "profile_id"
      (Val.str cfg.profile_id)) "access_key" (Val.str cfg.access_key))
      "transaction_type" (Val.str (if cfg.auto_capture then CAPTURE else AUTH)))
      "merchant_id" (Val.str cfg.merchant_id)) with
  | error e => rw [hfa] at h; simp at h
  | ok r5 =>
    rw [hfa] at h
    dsimp only at h
    injection h with h
    obtain ⟨s, rfl⟩ := formatAmount_ok_shape _ _ hfa
    exact ⟨s, h.symm⟩

theorem createResult_ok (cfg : Config) (ts uu : String) (data : Dict)
    (dec : Dec) (ha : dget data "amount" = some (Val.num dec)) :
    ∃ r0, createResult cfg ts uu data = Except.ok r0 := by
  unfold createResult
  dsimp only
  rw [show (decide ("merchant_id" ∈ ADDED_FIELDS)) = true from by decide,
    if_pos rfl]
  have hget : dget (dset (dset (dset (dset data "profile_id"
      (Val.str cfg.profile_id)) "access_key" (Val.str cfg.access_key))
      "transaction_type" (Val.str (if cfg.auto_capture then CAPTURE else AUTH)))
      "merchant_id" (Val.str cfg.merchant_id)) "amount"
      = some (Val.num dec) := by
    rw [dget_dset_ne _ _ _ _ (by decide), dget_dset_ne _ _ _ _ (by decide),
      dget_dset_ne _ _ _ _ (by decide), dget_dset_ne _ _ _ _ (by decide)]
    exact ha
  unfold formatAmount
  rw [hget]
  exact ⟨_, rfl⟩

theorem required_ok (cfg : Config) (ts uu : String) (data r0 : Dict)
    (hcr : createResult cfg ts uu data = Except.ok r0)
    (href : dmem data "reference_number" = true) :
    (REQUIRED_FIELDS.all fun f => dmem (withNameFields r0) f) = true := by
  obtain ⟨s, rfl⟩ := createResult_ok_shape cfg ts uu data r0 hcr
  rw [List.all_eq_true]
  intro f hf
  simp only [REQUIRED_FIELDS, List.mem_cons, List.not_mem_nil, or_false]
    at hf
  rcases hf with rfl | rfl | rfl | rfl | rfl | rfl | rfl | rfl | rfl
    | rfl | rfl <;>
    simp [dmem_withNameFields, addMissing_eq_setdefaults, dmem_setdefault,
      dmem_dset, href]

theorem sign_ok_of_withNameFields (mac : String → String → String)
    (cfg : Config) (r0 : Dict) :
    ∃ sg, sign mac cfg (withNameFields r0) (some (signedNamesOf r0))
      = Except.ok sg := by
  have hpres : ∀ f ∈ signedNamesOf r0, dmem (withNameFields r0) f = true := by
    intro f hf
    rw [dmem_withNameFields]
    rcases (mem_signedNamesOf r0 f).mp hf with ⟨hmem, -⟩ | hex
    · simp [(mem_dkeys_iff_dmem r0 f).mp hmem]
    · have hor : f = "signed_field_names" ∨ f = "unsigned_field_names" := by
        simpa [EXTRA_FIELDS] using hex
      rcases hor with rfl | rfl <;> simp
  obtain ⟨vals, hv⟩ :=
    lookupAll_isOk (withNameFields r0) (signedNamesOf r0) hpres
  exact ⟨mac cfg.secret_key (joinComma vals), by rw [sign_some, hv]⟩

/-- On any input carrying a numeric `amount` and a `reference_number`,
`process` succeeds (the pre-check passes, a numeric amount always
formats, the auto-injected fields satisfy the required check, and every
signed field is present for the canonical string). -/
theorem process_isOk (mac : String → String → String) (cfg : Config)
    (ts uu : String) (data : Dict) (dec : Dec)
    (ha : dget data "amount" = some (Val.num dec))
    (href : dmem data "reference_number" = true) :
    ∃ r, process mac cfg ts uu data = Except.ok r := by
  obtain ⟨r0, hcr⟩ := createResult_ok cfg ts uu data dec ha
  unfold process
  rw [if_pos ?hch, hcr]
  case hch =>
    rw [show CHECK_FIELDS = ["amount", "reference_number"] from rfl]
    have h1 : dmem data "amount" = true := by simp [dmem, ha]
    simp [h1, href]
  dsimp only
  rw [if_pos (required_ok cfg ts uu data r0 hcr href)]
  obtain ⟨sg, hsg⟩ := sign_ok_of_withNameFields mac cfg r0
  rw [hsg]
  exact ⟨_, rfl⟩

/-- Modelled from the spec: the billing address record handed to
`map_address` (the `AddressData` dataclass lies outside the gateway
sources); a `none` attribute models absent data, as does a `none`
address object as a whole (`getattr(None, ..., None)`). -/
structure Address where
  first_name : Option String
  last_name : Option String
  street_address_1 : Option String
  street_address_2 : Option String
  city : Option String
  postal_code : Option String
  country : Option String
  phone : Option String
  country_area : Option String
  city_area : Option String
deriving DecidableEq

/-- `utils.ADDRESS_MAP` (insertion order of the source dict). -/
def ADDRESS_MAP : List (String × String) :=
  [("first_name", "bill_to_forename"), ("last_name", "bill_to_surname"),
   ("street_address_1", "bill_to_address_line1"),
   ("street_address_2", "bill_to_address_line2"),
   ("city", "bill_to_address_city"),
   ("postal_code", "bill_to_address_postal_code"),
   ("country", "bill_to_address_country"), ("phone", "bill_to_phone")]

/-- `getattr(address, name, None)` over the attributes `map_address`
reads. -/
def Address.getField (a : Address) : String → Option String
  | "first_name" => a.first_name
  | "last_name" => a.last_name
  | "street_address_1" => a.street_address_1
  | "street_address_2" => a.street_address_2
  | "city" => a.city
  | "postal_code" => a.postal_code
  | "country" => a.country
  | "phone" => a.phone
  | "country_area" => a.country_area
  | "city_area" => a.city_area
  | _ => none

/-- Python `x or y` on optional strings (the empty string is falsy). -/
def pyOrStr : Option String → Option String → Option String
  | some s, b => if s = "" then b else some s
  | none, b => b

/-- The `{ADDRESS_MAP[k]: v for k, v in addr.items() if v is not None}`
comprehension of `map_address`. -/
def addrFields (a : Address) : List (String × String) → Dict
  | [] => []
  | p :: ps =>
    match a.getField p.1 with
    | none => addrFields a ps
    | some v => (p.2, Val.str v) :: addrFields a ps

/-- `utils.map_address`. -/
def mapAddress (addr : Option Address) (email : Option String) : Dict :=
  let base := match addr with
    | none => []
    | some a => addrFields a ADDRESS_MAP
  let state := match addr with
    | none => none
    | some a => pyOrStr a.country_area a.city_area
  let base1 := match state with
    | none => base
    | some s => dset base "bill_to_address_state" (Val.str s)
  match email with
  | none => base1
  | some e => dset base1 "bill_to_email" (Val.str e)

/-- The field names `map_address` can produce. -/
def BILL_KEYS : List String :=
  ["bill_to_forename", "bill_to_surname", "bill_to_address_line1",
   "bill_to_address_line2", "bill_to_address_city",
   "bill_to_address_postal_code", "bill_to_address_country",
   "bill_to_phone", "bill_to_address_state", "bill_to_email"]

theorem mem_dkeys_addrFields (a : Address) (l : List (String × String))
    (k : String) (h : k ∈ dkeys (addrFields a l)) :
    k ∈ l.map (fun p => p.2) := by
  induction l with
  | nil => simp [addrFields, dkeys] at h
  | cons p ps ih =>
    unfold addrFields at h
    cases hg : a.getField p.1 with
    | none =>
      rw [hg] at h
      exact List.mem_cons_of_mem _ (ih h)
    | some v =>
      rw [hg] at h
      rcases List.mem_cons.mp h with h | h
      · exact h ▸ List.mem_cons_self _ _
      · exact List.mem_cons_of_mem _ (ih h)

theorem mem_dkeys_mapAddress (addr : Option Address)
    (email : Option String) (k : String)
    (h : k ∈ dkeys (mapAddress addr email)) : k ∈ BILL_KEYS := by
  have hmap : ∀ s ∈ ADDRESS_MAP.map (fun p => p.2), s ∈ BILL_KEYS := by
    decide
  cases addr with
  | none =>
    cases email with
    | none => simp [mapAddress, dkeys] at h
    | some e =>
      unfold mapAddress at h
      dsimp only at h
      rcases (mem_dkeys_dset _ _ _ _).mp h with h' | h'
      · rw [h']; decide
      · simp [dkeys] at h'
  | some a =>
    unfold mapAddress at h
    dsimp only at h
    have hb : ∀ k', k' ∈ dkeys (addrFields a ADDRESS_MAP) →
        k' ∈ BILL_KEYS :=
      fun k' hk' => hmap k' (mem_dkeys_addrFields a ADDRESS_MAP k' hk')
    cases email with
    | none =>
      dsimp only at h
      cases hst : pyOrStr a.country_area a.city_area with
      | none => rw [hst] at h; exact hb k h
      | some s =>
        rw [hst] at h
        rcases (mem_dkeys_dset _ _ _ _).mp h with h' | h'
        · rw [h']; decide
        · exact hb k h'
    | some e =>
      dsimp only at h
      rcases (mem_dkeys_dset _ _ _ _).mp h with h' | h'
      · rw [h']; decide
      cases hst : pyOrStr a.country_area a.city_area with
      | none => rw [hst] at h'; exact hb k h'
      | some s =>
        rw [hst] at h'
        rcases (mem_dkeys_dset _ _ _ _).mp h' with h'' | h''
        · rw [h'']; decide
        · exact hb k h''

theorem dget_dmerge_notkeys (d e : Dict) (k : String)
    (h : k ∉ dkeys e) : dget (dmerge d e) k = dget d k := by
  induction e generalizing d with
  | nil => rfl
  | cons p ps ih =>
    have h1 : k ∉ dkeys ps := fun hh => h (List.mem_cons_of_mem _ hh)
    have h2 : k ≠ p.1 := fun hh => h (hh ▸ List.mem_cons_self _ _)
    rw [show dmerge d (p :: ps) = dmerge (dset d p.1 p.2) ps from rfl,
      ih _ h1, dget_dset_ne _ _ _ _ h2]

/-- Modelled from the spec: the slice of the `PaymentData` dataclass the
plugin reads (the interface module lies outside the gateway sources). -/
structure PaymentData where
  amount : Dec
  currency : String
  payment_id : Int
  token : Option String
  billing : Option Address
  customer_email : Option String
  data : Dict
deriving DecidableEq

/-- Modelled from the spec: the payment-record fields read along the
`_process_payment` path (persistence lies outside the gateway
sources). -/
structure Payment where
  to_confirm : Bool
  order : Option Int
deriving DecidableEq

/-- `is_client_token` in the non-strict mode the plugin uses: `None` on
a falsy token, otherwise whether `uuid.UUID(token)` parses — the
`uuid.UUID` constructor is abstracted as the predicate `isUUID`. -/
def isClientToken (isUUID : String → Bool) (token : Option String) :
    Option Bool :=
  match token with
  | none => none
  | some t => if t = "" then none else some (isUUID t)

/-- `utils.make_searchable`: the token with hyphens removed. -/
def makeSearchable (token : String) : String :=
  String.mk (token.data.filter (fun c => decide (c ≠ '-')))

/-- The `action_required_data` payload built by `_create_ard`. -/
structure Ard where
  action : String
  inputs : Dict
  txn_id : String
deriving DecidableEq

/-- Modelled from the spec: the slice of the `GatewayResponse`
dataclass the plugin constructs (the interface module lies outside the
gateway sources). -/
structure GatewayResp where
  kind : TransactionKind
  is_success : Bool
  action_required : Bool
  action_required_data : Option Ard
  amount : Dec
  currency : String
  transaction_id : Option String
  searchable_key : Option String
  raw_response : Option Dict
  error : Option String
deriving DecidableEq

/-- `CyberSourceGatewayPlugin._create_ard` (with the wall clock and the
fresh uuid of `process` passed through; the latter is immaterial here
because the dict supplies `transaction_uuid`). -/
def createArd (mac : String → String → String) (cfg : Config)
    (ts uu : String) (pd : PaymentData) (token : String) :
    Except PyErr Ard :=
  let base : Dict :=
    [("amount", Val.num pd.amount), ("currency", Val.str pd.currency),
     ("reference_number", Val.num ⟨pd.payment_id, 0⟩),
     ("transaction_uuid", Val.str token)]
  let ardData := dmerge base (mapAddress pd.billing pd.customer_email)
  match process mac cfg ts uu ardData with
  | Except.error e => Except.error e
  | Except.ok inputs =>
    Except.ok ⟨if cfg.is_live then LIVE_URL else TEST_URL, inputs, token⟩

/-- `_create_payment` composed with `_create_response`: the overriding
`data` dict supplies `action_required = True`, the `action_required`
payload and the fresh transaction id; `raw_response` is not set on this
path and `error` is `None`. -/
def createPayment (mac : String → String → String) (cfg : Config)
    (ts uu : String) (pd : PaymentData) (token : String) :
    Except PyErr GatewayResp :=
  match createArd mac cfg ts uu pd token with
  | Except.error e => Except.error e
  | Except.ok ard =>
    Except.ok ⟨TransactionKind.ACTION_TO_CONFIRM, true, true, some ard,
      pd.amount, pd.currency, some token, some (makeSearchable token),
      none, none⟩

/-- The `{str(k): str(v) for k, v in data.items()}` copy attached as
`raw_response`. -/
def stringifyDict (d : Dict) : Dict :=
  d.map (fun p => (p.1, Val.str (valRender p.2)))

/-- `CyberSourceGatewayPlugin._process_payment`.  The payment lookup
(`_get_payment`, a locking query against the external store) is
abstracted as `lookup`; `pluginCapture` is the plugin-level `Automatic
payment capture` flag consulted by `_get_default_kind`; `fresh` is the
`get_client_token()` value. -/
def processPayment (mac : String → String → String)
    (isUUID : String → Bool) (cfg : Config) (pluginCapture : Bool)
    (lookup : Int → Option Payment) (ts uu fresh : String)
    (pd : PaymentData) (kind : Option TransactionKind) :
    Except PyErr GatewayResp :=
  if isClientToken isUUID pd.token ≠ some true then
    createPayment mac cfg ts uu pd fresh
  else
    let kind1 := match kind with
      | none =>
        if pluginCapture then TransactionKind.CAPTURE
        else TransactionKind.AUTH
      | some TransactionKind.CONFIRM =>
        if pluginCapture then TransactionKind.CAPTURE
        else TransactionKind.AUTH
      | some k => k
    match lookup pd.payment_id with
    | none => Except.error (PyErr.paymentError
        ("Payment information not found for ID="
          ++ toString pd.payment_id ++ "."))
    | some payment =>
      match (if payment.to_confirm then confirmPaymentKind kind1 pd.data
        else Except.ok kind1) with
      | Except.error e => Except.error e
      | Except.ok kind2 =>
        Except.ok ⟨kind2, true,
          decide (kind2 = TransactionKind.ACTION_TO_CONFIRM), none,
          pd.amount, pd.currency, pd.token, pd.token.map makeSearchable,
          (if pd.data.isEmpty then none else some (stringifyDict pd.data)),
          none⟩

/-- C8: whenever `_process_payment` is called with a payment token that
is not a well-formed client token (per `is_client_token`), it returns a
response of kind ACTION_TO_CONFIRM with `action_required = true` whose
transaction id is the freshly generated token — and it does so without
looking up the payment: the result is the same for every `lookup`.
This holds on every such call (each call re-issues a fresh redirect). -/
theorem no_token_fresh_redirect (mac : String → String → String)
    (isUUID : String → Bool) (cfg : Config) (pluginCapture : Bool)
    (lookup : Int → Option Payment) (ts uu fresh : String)
    (pd : PaymentData) (kind : Option TransactionKind)
    (h : isClientToken isUUID pd.token ≠ some true) :
    ∃ ard,
      processPayment mac isUUID cfg pluginCapture lookup ts uu fresh pd kind
        = Except.ok ⟨TransactionKind.ACTION_TO_CONFIRM, true, true,
            some ard, pd.amount, pd.currency, some fresh,
            some (makeSearchable fresh), none, none⟩ := by
  unfold processPayment
  rw [if_pos h]
  unfold createPayment createArd
  dsimp only
  have hnk : ∀ k, k ∈ BILL_KEYS → (k = "amount" ∨ k = "reference_number")
      → False := by decide
  have ha : dget (dmerge [("amount", Val.num pd.amount),
      ("currency", Val.str pd.currency),
      ("reference_number", Val.num ⟨pd.payment_id, 0⟩),
      ("transaction_uuid", Val.str fresh)]
      (mapAddress pd.billing pd.customer_email)) "amount"
      = some (Val.num pd.amount) := by
    rw [dget_dmerge_notkeys _ _ _ (fun hm => hnk "amount"
      (mem_dkeys_mapAddress _ _ _ hm) (Or.inl rfl))]
    rfl
  have hr : dmem (dmerge [("amount", Val.num pd.amount),
      ("currency", Val.str pd.currency),
      ("reference_number", Val.num ⟨pd.payment_id, 0⟩),
      ("transaction_uuid", Val.str fresh)]
      (mapAddress pd.billing pd.customer_email)) "reference_number"
      = true := by
    unfold dmem
    rw [dget_dmerge_notkeys _ _ _ (fun hm => hnk "reference_number"
      (mem_dkeys_mapAddress _ _ _ hm) (Or.inr rfl))]
    rfl
  obtain ⟨r, hrr⟩ := process_isOk mac cfg ts uu _ pd.amount ha hr
  rw [hrr]
  exact ⟨_, rfl⟩

/-- Concrete payment data without a prior token. -/
def pd0 : PaymentData := ⟨⟨100, 0⟩, "NPR", 7, none, none, none, []⟩

/-- Witness for C8 at concrete inputs (the token is absent, so
`is_client_token` yields `None` and a fresh redirect is issued). -/
theorem no_token_fresh_redirect_witness :
    ∃ ard,
      processPayment mac0 (fun _ => false) cfg0 true (fun _ => none)
          ts0 uu0 "22222222-3333-4444-5555-666666666666" pd0 none
        = Except.ok ⟨TransactionKind.ACTION_TO_CONFIRM, true, true,
            some ard, pd0.amount, pd0.currency,
            some "22222222-3333-4444-5555-666666666666",
            some (makeSearchable "22222222-3333-4444-5555-666666666666"),
            none, none⟩ :=
  no_token_fresh_redirect mac0 (fun _ => false) cfg0 true (fun _ => none)
    ts0 uu0 "22222222-3333-4444-5555-666666666666" pd0 none (by decide)

/- C2: the webhook entry point. -/

def E_BAD_RESP : String :=
  "Unable to validate response sent by Payment Gateway."

def E_BAD_SIGN : String :=
  "Cannot verify response data sent by Payment Gateway."

/-- `webhooks._validate_payment`: translates `ValidationError` /
`SignatureError` raised by `CyberSource.validate` into `PaymentError`s
carrying the module's messages; other exceptions pass through
uncaught. -/
def validatePayment (mac : String → String → String) (cfg : Config)
    (data : Dict) : Except PyErr Response :=
  match validate mac cfg data with
  | Except.ok r => Except.ok r
  | Except.error (PyErr.validationError _) =>
    Except.error (PyErr.paymentError E_BAD_RESP)
  | Except.error (PyErr.signatureError _) =>
    Except.error (PyErr.paymentError E_BAD_SIGN)
  | Except.error e => Except.error e

/-- `webhooks.handle_webhook`.  After a successful validation, for a
response whose status lies in `Status.RETURN` the source executes
`payment = get_payment(response[PAYMENT_ID])` — but `webhooks.py`
never imports `get_payment` (it is defined in `utils.py`, absent from
the module's import list), so CPython raises
`NameError: name 'get_payment' is not defined` while resolving the
callee, before the argument (itself a `TypeError`: `csapi.Response`
defines no `__getitem__`) is evaluated.  The
`transaction_with_commit_on_errors` decorator and the constants
`PAYMENT_ID`/`TOKEN_NAME` imported from the package root (both outside
these sources) are immaterial to this statement and not modelled. -/
def handleWebhook (mac : String → String → String) (cfg : Config)
    (data : Dict) : Except PyErr Response :=
  match validatePayment mac cfg data with
  | Except.error e => Except.error e
  | Except.ok resp =>
    match Response.status resp with
    | some v =>
      if valInStrSet v STATUS_RETURN then
        Except.error (PyErr.nameError "get_payment")
      else Except.ok resp
    | none => Except.ok resp

/-- A webhook payload with decision ACCEPT, correctly signed under
`cfg0` and the digest stand-in `mac0`. -/
def wh0 : Dict :=
  [("decision", Val.str "ACCEPT"), ("req_amount", Val.str "100.00"),
   ("signed_field_names", Val.str "decision,req_amount"),
   ("signature", Val.str (mac0 "SK" "decision=ACCEPT,req_amount=100.00"))]

/-- C2: a correctly signed ACCEPT webhook delivery crashes with
`NameError` inside `handle_webhook` before any payment lookup,
transaction upsert (`Handler._process_transaction`) or order creation
is reached — so neither the first nor a repeated delivery ever creates
or updates a Transaction, against the claim's described upsert
idempotence. -/
theorem webhook_upsert_unreachable :
    handleWebhook mac0 cfg0 wh0
      = Except.error (PyErr.nameError "get_payment") := by decide

end Saleor

